import Mathlib

/-!
Shallow embedding of `src/SolarControl.ino` (a solar thermal pump
controller) and verification of the specification's claims about it.

Modelling conventions:
- Temperatures (C `float`) are modelled as rationals `ℚ`; every comparison
  the program performs on them is an exact order comparison, so `ℚ`
  preserves the branch structure.
- `millis()` timestamps (C `unsigned long`) are modelled as `Nat`; the
  program only forms differences `now - last` with `last ≤ now`
  (timestamps recorded earlier in the same run), where C unsigned
  subtraction agrees with `Nat` subtraction.
- Pin levels: `HIGH` is `true`, `LOW` is `false`. `currentPumpState = HIGH`
  means the pump is ON.
- The spec's vocabulary maps to the source as: cold = `tempCold`,
  hot = `tempHot`, reservoir = `tempTank`, collector = `tempPanel`,
  `verificationActive` = `runningTempCheck`,
  `lastSwitchTime` = `lastSwitchMillis`, `lastOnTime` = `lastPumpOnMillis`,
  `minSwitchInterval` = `MIN_MS_BETWEEN_SWITCHES`,
  `minVerificationDuration` = `MIN_MS_TEMP_CHECK`,
  `maxOffDuration` = `MAX_MS_BETWEEN_TEMP_CHECK`.
- Constants use the non-`TEST_SYSTEM` values of the source.
-/

namespace SolarControl

/-- Source line 33: `#define MAX_TANK_TEMPERATURE 60`. -/
def MAX_TANK_TEMPERATURE : ℚ := 60

/-- Source line 42: `#define MIN_PANEL_TEMP_DIFF 10`. -/
def MIN_PANEL_TEMP_DIFF : ℚ := 10

/-- Source line 49: `#define MIN_HOT_COLD_TEMP_DIFF 1`. -/
def MIN_HOT_COLD_TEMP_DIFF : ℚ := 1

/-- Source line 65: `#define MIN_MS_BETWEEN_SWITCHES (60*1000)`. -/
def MIN_MS_BETWEEN_SWITCHES : Nat := 60 * 1000

/-- Source line 80: `#define MAX_MS_BETWEEN_TEMP_CHECK (30*60*1000)`. -/
def MAX_MS_BETWEEN_TEMP_CHECK : Nat := 30 * 60 * 1000

/-- Source line 88: `#define MIN_MS_TEMP_CHECK (30*1000)`. -/
def MIN_MS_TEMP_CHECK : Nat := 30 * 1000

/-- Source line 92: `#define SERIAL_BUFFER_SIZE 128`. -/
def SERIAL_BUFFER_SIZE : Nat := 128

/-- The mutable controller state of the sketch: `currentPumpState`
(line 53), `lastSwitchMillis` (line 56), `lastPumpOnMillis` (line 58),
`runningTempCheck` (line 90). -/
structure ControllerState where
  currentPumpState : Bool
  lastSwitchMillis : Nat
  lastPumpOnMillis : Nat
  runningTempCheck : Bool
  deriving Repr, DecidableEq

/-- The four sensor readings fetched at the top of `controlPump`
(lines 152-155). -/
structure Readings where
  tempCold : ℚ
  tempHot : ℚ
  tempTank : ℚ
  tempPanel : ℚ
  deriving Repr, DecidableEq

/-- Source lines 122-126: `isValidTemperature`,
`return temp > -10 && temp < 400;`. -/
def isValidTemperature (temp : ℚ) : Bool :=
  decide (temp > -10) && decide (temp < 400)

/-- State produced by `setup` (lines 53, 114-118): pump starts `HIGH`,
both timestamps start at the current `millis()`, and the system starts
in temp-check mode (`runningTempCheck = true`). -/
def initState (t : Nat) : ControllerState :=
  { currentPumpState := true
    lastSwitchMillis := t
    lastPumpOnMillis := t
    runningTempCheck := true }

/-- Condition of the forced temperature-check rule, source lines 160-161:
`millis() - lastPumpOnMillis > MAX_MS_BETWEEN_TEMP_CHECK &&
 (!isValidTemperature(tempTank) || !isValidTemperature(tempPanel) ||
  tempPanel + 10 > tempTank)`. -/
def forcedCheckCond (s : ControllerState) (r : Readings) (now : Nat) : Bool :=
  decide (now - s.lastPumpOnMillis > MAX_MS_BETWEEN_TEMP_CHECK) &&
    (!isValidTemperature r.tempTank || !isValidTemperature r.tempPanel ||
      decide (r.tempPanel + 10 > r.tempTank))

/-- Transcription of the SPEC's wording of the forced-verification
condition (spec §4.2 rule 1, quoted by claim C2), for comparison against
the source's `forcedCheckCond`: `timeSinceLastOn > maxOffDuration` AND
(reservoir or collector reading invalid, OR `collector + 10 <= reservoir`).
This definition deliberately follows the spec's words, not the code. -/
def claimedForcedCheckCond (s : ControllerState) (r : Readings) (now : Nat) : Bool :=
  decide (now - s.lastPumpOnMillis > MAX_MS_BETWEEN_TEMP_CHECK) &&
    (!isValidTemperature r.tempTank || !isValidTemperature r.tempPanel ||
      decide (r.tempPanel + 10 ≤ r.tempTank))

/-- Source line 173: `float tempHotWithAlt = isValidTemperature(tempHot) ?
tempHot : tempPanel;`. NOTE: the source computes this variable but never
uses it afterwards; line 191 compares `tempHot` directly. -/
def tempHotWithAlt (r : Readings) : ℚ :=
  if isValidTemperature r.tempHot then r.tempHot else r.tempPanel

/-- The `desiredPumpState` computed by the decision branches of
`controlPump` before the emergency override, source lines 151 and 160-205:
rule 1 (forced check) first, then the currently-ON branch (lines 168-194),
then the currently-OFF branch (lines 195-205); `desiredPumpState` is
initialised to `currentPumpState` (line 151) and is left unchanged by any
branch that does not assign it. -/
def decisionDesired (s : ControllerState) (r : Readings) (now : Nat) : Bool :=
  if forcedCheckCond s r now then true
  else if s.currentPumpState then
    if !isValidTemperature r.tempCold then false
    else if !isValidTemperature r.tempHot && !isValidTemperature r.tempPanel then false
    else if decide (r.tempCold > MAX_TANK_TEMPERATURE) then false
    else if decide (r.tempHot - r.tempCold < MIN_HOT_COLD_TEMP_DIFF) then false
    else s.currentPumpState
  else
    if isValidTemperature r.tempPanel && isValidTemperature r.tempTank &&
        decide (r.tempTank < MAX_TANK_TEMPERATURE) then
      if decide (r.tempPanel - r.tempTank > MIN_PANEL_TEMP_DIFF) then true
      else s.currentPumpState
    else s.currentPumpState

/-- The value of `runningTempCheck` after the decision branches: the only
assignment to it in the decision phase is `runningTempCheck = true` inside
the rule-1 branch (source line 167); every other branch leaves it as it
was. -/
def decisionRtc (s : ControllerState) (r : Readings) (now : Nat) : Bool :=
  if forcedCheckCond s r now then true else s.runningTempCheck

/-- The desired state after the emergency override, source lines 207-210:
if water is detected in the pump housing, `desiredPumpState = LOW`
unconditionally. -/
def desiredPumpState (s : ControllerState) (r : Readings) (e : Bool) (now : Nat) : Bool :=
  if e then false else decisionDesired s r now

/-- `allowStateChange` of the switch guard, source lines 213-230, with
`rtc1` the current value of `runningTempCheck` (already updated by the
decision phase) and `e` the emergency flag: emergency first, then the
quick shutoff during a temp check, then the ordinary dwell-time rule. -/
def allowStateChange (s : ControllerState) (desired rtc1 e : Bool) (now : Nat) : Bool :=
  if e then true
  else if now - s.lastSwitchMillis > MIN_MS_TEMP_CHECK ∧ rtc1 = true ∧ desired = false then true
  else if now - s.lastSwitchMillis > MIN_MS_BETWEEN_SWITCHES then true
  else false

/-- The switch guard, source lines 212-235: when the desired state differs
from the current one and the change is allowed, the pump state becomes
`desired` and `lastSwitchMillis` becomes `now`; otherwise both fields
keep their old values. Returns (new `currentPumpState`, new
`lastSwitchMillis`). -/
def guardResult (s : ControllerState) (desired rtc1 e : Bool) (now : Nat) : Bool × Nat :=
  if desired ≠ s.currentPumpState then
    if allowStateChange s desired rtc1 e now then (desired, now)
    else (s.currentPumpState, s.lastSwitchMillis)
  else (s.currentPumpState, s.lastSwitchMillis)

/-- One full `controlPump` cycle, source lines 150-246, as a function from
the controller state, the four readings, the emergency input
(`emergencyShutoffTriggered`, line 158) and the current `millis()` to the
next controller state. After the guard (lines 236-244): if the pump is ON,
`lastPumpOnMillis` is refreshed to `now`; otherwise `runningTempCheck` is
cleared. -/
def controlPump (s : ControllerState) (r : Readings) (e : Bool) (now : Nat) : ControllerState :=
  { currentPumpState := (guardResult s (desiredPumpState s r e now) (decisionRtc s r now) e now).1
    lastSwitchMillis := (guardResult s (desiredPumpState s r e now) (decisionRtc s r now) e now).2
    lastPumpOnMillis :=
      if (guardResult s (desiredPumpState s r e now) (decisionRtc s r now) e now).1 = true then now
      else s.lastPumpOnMillis
    runningTempCheck :=
      if (guardResult s (desiredPumpState s r e now) (decisionRtc s r now) e now).1 = true then
        decisionRtc s r now
      else false }

/-! ### Helper lemmas about the switch guard -/

/-- When the emergency input is asserted, the guard always lets the desired
state through (either it equals the current state or the change is allowed
by the emergency branch). -/
lemma guardResult_fst_emergency (s : ControllerState) (d rtc1 : Bool) (now : Nat) :
    (guardResult s d rtc1 true now).1 = d := by
  unfold guardResult allowStateChange
  split
  · simp
  · next h =>
    simp only [ne_eq, not_not] at h
    simp [h]

/-- When the desired state equals the current one, the guard changes
nothing. -/
lemma guardResult_noop (s : ControllerState) (d rtc1 e : Bool) (now : Nat)
    (h : d = s.currentPumpState) :
    guardResult s d rtc1 e now = (s.currentPumpState, s.lastSwitchMillis) := by
  unfold guardResult
  simp [h]

/-! ### Claims -/

/-- Claim C1: in every control cycle in which the emergency condition
(water detected in the pump housing) is asserted, the emergency override
forces the desired state to OFF, and the actuator state at the end of the
cycle is OFF regardless of `timeSinceLastSwitch`, `runningTempCheck`, or
any temperature reading: the override bypasses all dwell-time rules of the
switch guard. -/
theorem C1_emergency_forces_off :
    ∀ (s : ControllerState) (r : Readings) (now : Nat),
      desiredPumpState s r true now = false ∧
      (controlPump s r true now).currentPumpState = false := by
  intro s r now
  have hd : desiredPumpState s r true now = false := by simp [desiredPumpState]
  refine ⟨hd, ?_⟩
  simp only [controlPump, hd, guardResult_fst_emergency]

/-- Claim C2 (amended): the forced-verification rule fires exactly when
`timeSinceLastOn > maxOffDuration` AND (the reservoir reading is invalid,
OR the collector reading is invalid, OR `collector + 10 > reservoir`);
when it fires, the decision phase produces desired state ON and sets
`runningTempCheck` true, regardless of the currently-ON / currently-OFF
branches. (The source's third disjunct is `tempPanel + 10 > tempTank`,
the opposite direction of the spec's `collector + 10 <= reservoir`.) -/
theorem C2_forced_verification_rule :
    ∀ (s : ControllerState) (r : Readings) (now : Nat),
      (forcedCheckCond s r now = true ↔
        (MAX_MS_BETWEEN_TEMP_CHECK < now - s.lastPumpOnMillis ∧
          (isValidTemperature r.tempTank = false ∨ isValidTemperature r.tempPanel = false ∨
            r.tempTank < r.tempPanel + 10))) ∧
      (forcedCheckCond s r now = true →
        decisionDesired s r now = true ∧ decisionRtc s r now = true) := by
  intro s r now
  constructor
  · simp only [forcedCheckCond, Bool.and_eq_true, Bool.or_eq_true, Bool.not_eq_true',
      decide_eq_true_eq, gt_iff_lt]
    tauto
  · intro h
    exact ⟨by simp [decisionDesired, h], by simp [decisionRtc, h]⟩

/-- Witness for C2: at a concrete input (reservoir 20, collector 15, both
valid, pump off for more than `MAX_MS_BETWEEN_TEMP_CHECK`), the rule fires
and forces the desired state ON. -/
theorem C2_forced_verification_rule_witness :
    decisionDesired ⟨false, 0, 0, false⟩ ⟨20, 20, 20, 15⟩ 1800001 = true :=
  ((C2_forced_verification_rule ⟨false, 0, 0, false⟩ ⟨20, 20, 20, 15⟩ 1800001).2
    (by norm_num [forcedCheckCond, isValidTemperature, MAX_MS_BETWEEN_TEMP_CHECK])).1

/-- Counterexample to C2 as stated: with reservoir (tank) = 20 and
collector (panel) = 15, both valid, and the pump off long enough, the
source's condition (line 161, `tempPanel + 10 > tempTank`) fires, while
the spec's claimed condition (`collector + 10 <= reservoir`) does not:
the two conditions are not the same predicate. -/
theorem C2_counterexample :
    forcedCheckCond ⟨false, 0, 0, false⟩ ⟨20, 20, 20, 15⟩ 1800001 = true ∧
    claimedForcedCheckCond ⟨false, 0, 0, false⟩ ⟨20, 20, 20, 15⟩ 1800001 = false := by
  constructor <;>
    norm_num [forcedCheckCond, claimedForcedCheckCond, isValidTemperature,
      MAX_MS_BETWEEN_TEMP_CHECK]

/-- Claim C8: the validity filter is a pure total function of a single
reading, true exactly when `-10 < reading < 400`; the boundary values
`-10` and `400` are invalid, while `-9.999` and `399.999` are valid. -/
theorem C8_validity_filter :
    ∀ q : ℚ, (isValidTemperature q = true ↔ (-10 < q ∧ q < 400)) ∧
      isValidTemperature (-10) = false ∧ isValidTemperature 400 = false ∧
      isValidTemperature (-9999/1000) = true ∧
      isValidTemperature (399999/1000) = true := by
  intro q
  refine ⟨?_, by norm_num [isValidTemperature], by norm_num [isValidTemperature],
    by norm_num [isValidTemperature], by norm_num [isValidTemperature]⟩
  simp [isValidTemperature]

/-- Witness for C8: the characterisation applied at the concrete reading
17, which the filter accepts. -/
theorem C8_validity_filter_witness : isValidTemperature 17 = true :=
  (C8_validity_filter 17).1.mpr (by norm_num)

/-- Claim C3: the code computes `tempHotWithAlt` (line 173, "If hot
thermocouple is broken we use panel temp") but never uses it: at the
failing input (pump ON, cold = 20 valid, hot = -127 invalid, tank = 20,
panel = 50 valid, no forced check), the differential test of line 191 is
evaluated with the invalid raw `tempHot` and turns the pump OFF, whereas
substituting the computed alternative (the valid panel reading, as the
code's own comment and the spec intend) would keep it ON. -/
theorem C3_invalid_hot_compared :
    isValidTemperature (-127 : ℚ) = false ∧
    decisionDesired ⟨true, 0, 0, false⟩ ⟨20, -127, 20, 50⟩ 1000 = false ∧
    tempHotWithAlt ⟨20, -127, 20, 50⟩ = 50 ∧
    decisionDesired ⟨true, 0, 0, false⟩ ⟨20, tempHotWithAlt ⟨20, -127, 20, 50⟩, 20, 50⟩ 1000
      = true := by
  refine ⟨by norm_num [isValidTemperature], ?_, ?_, ?_⟩ <;>
    norm_num [decisionDesired, forcedCheckCond, isValidTemperature, tempHotWithAlt,
      MAX_MS_BETWEEN_TEMP_CHECK, MAX_TANK_TEMPERATURE, MIN_HOT_COLD_TEMP_DIFF,
      MIN_PANEL_TEMP_DIFF]

/-- Claim C4 (amended): if the actuator is currently ON, the forced
temperature-check rule does not fire, and the cold (feed) reading is
invalid, then the decision phase's desired state is OFF, for every
combination of the other readings and flags. (Unamended, the claim fails:
the forced rule precedes the currently-ON branch and can force ON.) -/
theorem C4_on_invalid_cold_off :
    ∀ (s : ControllerState) (r : Readings) (now : Nat),
      s.currentPumpState = true →
      forcedCheckCond s r now = false →
      isValidTemperature r.tempCold = false →
      decisionDesired s r now = false := by
  intro s r now hcur hf hc
  simp [decisionDesired, hf, hcur, hc]

/-- Witness for C4: pump ON, cold = -127 (invalid), other readings valid,
pump recently on so the forced rule cannot fire; the desired state is
OFF. -/
theorem C4_on_invalid_cold_off_witness :
    decisionDesired ⟨true, 0, 0, false⟩ ⟨-127, 20, 20, 20⟩ 1000 = false :=
  C4_on_invalid_cold_off ⟨true, 0, 0, false⟩ ⟨-127, 20, 20, 20⟩ 1000 rfl
    (by norm_num [forcedCheckCond, MAX_MS_BETWEEN_TEMP_CHECK])
    (by norm_num [isValidTemperature])

/-- Counterexample to C4 as stated: pump currently ON, cold reading -127
(invalid), but `timeSinceLastOn` exceeds `MAX_MS_BETWEEN_TEMP_CHECK` and
the tank reading is also invalid, so the forced-check rule (which precedes
the currently-ON branch) forces the desired state ON, not OFF. -/
theorem C4_counterexample :
    (⟨true, 0, 0, false⟩ : ControllerState).currentPumpState = true ∧
    isValidTemperature ((-127 : ℚ)) = false ∧
    decisionDesired ⟨true, 0, 0, false⟩ ⟨-127, 20, -127, 20⟩ 1800001 = true := by
  refine ⟨rfl, by norm_num [isValidTemperature], ?_⟩
  norm_num [decisionDesired, forcedCheckCond, isValidTemperature,
    MAX_MS_BETWEEN_TEMP_CHECK]

/-- Claim C6: if the desired state differs from the current actuator
state, `timeSinceLastSwitch <= MIN_MS_BETWEEN_SWITCHES`, the emergency is
not asserted, and the quick-shutoff-during-temp-check override does not
apply, then the switch guard rejects the transition: `currentPumpState`
and `lastSwitchMillis` are unchanged for that cycle. -/
theorem C6_dwell_time_rejection :
    ∀ (s : ControllerState) (r : Readings) (now : Nat),
      desiredPumpState s r false now ≠ s.currentPumpState →
      now - s.lastSwitchMillis ≤ MIN_MS_BETWEEN_SWITCHES →
      ¬(now - s.lastSwitchMillis > MIN_MS_TEMP_CHECK ∧ decisionRtc s r now = true ∧
          desiredPumpState s r false now = false) →
      (controlPump s r false now).currentPumpState = s.currentPumpState ∧
      (controlPump s r false now).lastSwitchMillis = s.lastSwitchMillis := by
  intro s r now hne hle hver
  have hallow : allowStateChange s (desiredPumpState s r false now)
      (decisionRtc s r now) false now = false := by
    unfold allowStateChange
    rw [if_neg (by simp), if_neg hver, if_neg (Nat.not_lt.mpr hle)]
  have hg : guardResult s (desiredPumpState s r false now)
      (decisionRtc s r now) false now = (s.currentPumpState, s.lastSwitchMillis) := by
    unfold guardResult
    rw [if_pos hne, if_neg (by simp [hallow])]
  exact ⟨by simp [controlPump, hg], by simp [controlPump, hg]⟩

/-- Witness for C6: pump ON, a valid reading set asking for OFF
(`hot - cold = 0 < 1`), only 1000 ms since the last switch and no
override: the pump stays ON and the switch timestamp is unchanged. -/
theorem C6_dwell_time_rejection_witness :
    (controlPump ⟨true, 0, 0, false⟩ ⟨20, 20, 20, 20⟩ false 1000).currentPumpState = true ∧
    (controlPump ⟨true, 0, 0, false⟩ ⟨20, 20, 20, 20⟩ false 1000).lastSwitchMillis = 0 :=
  C6_dwell_time_rejection ⟨true, 0, 0, false⟩ ⟨20, 20, 20, 20⟩ 1000
    (by norm_num [desiredPumpState, decisionDesired, forcedCheckCond, isValidTemperature,
      MAX_MS_BETWEEN_TEMP_CHECK, MAX_TANK_TEMPERATURE, MIN_HOT_COLD_TEMP_DIFF])
    (by norm_num [MIN_MS_BETWEEN_SWITCHES])
    (by norm_num [MIN_MS_TEMP_CHECK])

/-- Claim C7 (amended): if the desired state (after the emergency
override) equals the current actuator state, the guard changes neither
`currentPumpState` nor `lastSwitchMillis`; `lastPumpOnMillis` is refreshed
when ON and kept when OFF; `runningTempCheck` is unchanged while ON unless
the forced-check rule fired this cycle (which sets it), and is cleared
when OFF. (Unamended, the claim fails: the forced rule can set
`runningTempCheck` even when no transition is requested.) -/
theorem C7_idempotent_guard :
    ∀ (s : ControllerState) (r : Readings) (e : Bool) (now : Nat),
      desiredPumpState s r e now = s.currentPumpState →
      (controlPump s r e now).currentPumpState = s.currentPumpState ∧
      (controlPump s r e now).lastSwitchMillis = s.lastSwitchMillis ∧
      (s.currentPumpState = true → (controlPump s r e now).lastPumpOnMillis = now) ∧
      (s.currentPumpState = false →
        (controlPump s r e now).lastPumpOnMillis = s.lastPumpOnMillis ∧
        (controlPump s r e now).runningTempCheck = false) ∧
      (s.currentPumpState = true → forcedCheckCond s r now = false →
        (controlPump s r e now).runningTempCheck = s.runningTempCheck) := by
  intro s r e now h
  have hg := guardResult_noop s _ (decisionRtc s r now) e now h
  refine ⟨by simp [controlPump, hg], by simp [controlPump, hg], ?_, ?_, ?_⟩
  · intro hc; simp [controlPump, hg, hc]
  · intro hc; simp [controlPump, hg, hc]
  · intro hc hf
    have hrtc : decisionRtc s r now = s.runningTempCheck := by simp [decisionRtc, hf]
    simp only [controlPump, hg]
    simp [hc, hrtc]

/-- Witness for C7: pump OFF, readings that keep it OFF (panel not hotter
than tank), so the desired state equals the current one; the guard leaves
the pump state unchanged. -/
theorem C7_idempotent_guard_witness :
    (controlPump ⟨false, 0, 0, false⟩ ⟨20, 20, 20, 20⟩ false 0).currentPumpState = false :=
  (C7_idempotent_guard ⟨false, 0, 0, false⟩ ⟨20, 20, 20, 20⟩ false 0
    (by norm_num [desiredPumpState, decisionDesired, forcedCheckCond, isValidTemperature,
      MAX_MS_BETWEEN_TEMP_CHECK, MAX_TANK_TEMPERATURE, MIN_PANEL_TEMP_DIFF])).1

/-- Counterexample to C7 as stated: pump ON with `runningTempCheck` false;
the forced-check rule fires (tank reading invalid, pump last on more than
`MAX_MS_BETWEEN_TEMP_CHECK` ago), so the desired state ON equals the
current state, yet `runningTempCheck` changes from false to true — a
Controller State field other than `lastPumpOnMillis` changes. -/
theorem C7_counterexample :
    desiredPumpState ⟨true, 0, 0, false⟩ ⟨20, 30, 500, 50⟩ false 1800001 =
      (⟨true, 0, 0, false⟩ : ControllerState).currentPumpState ∧
    (⟨true, 0, 0, false⟩ : ControllerState).runningTempCheck = false ∧
    (controlPump ⟨true, 0, 0, false⟩ ⟨20, 30, 500, 50⟩ false 1800001).runningTempCheck
      = true := by
  refine ⟨?_, rfl, ?_⟩ <;>
    norm_num [controlPump, guardResult, allowStateChange, desiredPumpState,
      decisionDesired, decisionRtc, forcedCheckCond, isValidTemperature,
      MAX_MS_BETWEEN_TEMP_CHECK, MAX_TANK_TEMPERATURE]

/-- Claim C5 (amended): from any state satisfying the flag-implies-ON
invariant (which holds at the initial state and is preserved by every
cycle, cf. C10): `runningTempCheck` can change from false to true only in
a cycle in which the forced-check rule fires and the pump is ON at cycle
end; and when it is true, it becomes false exactly when the actuator
transitions from ON to OFF — never while the actuator stays ON.
(Unamended, the claim fails: `setup` starts the system with the flag
already true, and the rule also sets the flag when the pump is already ON,
without any forced-on transition.) -/
theorem C5_verification_flag_transitions :
    ∀ (s : ControllerState) (r : Readings) (e : Bool) (now : Nat),
      (s.runningTempCheck = true → s.currentPumpState = true) →
      ((s.runningTempCheck = false → (controlPump s r e now).runningTempCheck = true →
          forcedCheckCond s r now = true ∧ (controlPump s r e now).currentPumpState = true) ∧
       (s.runningTempCheck = true →
          ((controlPump s r e now).runningTempCheck = false ↔
            (s.currentPumpState = true ∧ (controlPump s r e now).currentPumpState = false)))) := by
  intro s r e now hinv
  constructor
  · intro h0 h1
    cases hg : (guardResult s (desiredPumpState s r e now) (decisionRtc s r now) e now).1 with
    | false => simp [controlPump, hg] at h1
    | true =>
      refine ⟨?_, by simp [controlPump, hg]⟩
      simp only [controlPump, hg, if_pos rfl] at h1
      by_cases hf : forcedCheckCond s r now = true
      · exact hf
      · simp [decisionRtc, hf, h0] at h1
  · intro h1
    have hcur := hinv h1
    have hrtc : decisionRtc s r now = true := by simp [decisionRtc, h1]
    cases hg : (guardResult s (desiredPumpState s r e now) (decisionRtc s r now) e now).1 with
    | false => simp [controlPump, hg, hcur]
    | true => simp [controlPump, hg, hcur, hrtc]

/-- Witness for C5: pump ON in temp-check mode with readings that keep it
ON; the flag stays true because the actuator does not transition to OFF. -/
theorem C5_verification_flag_transitions_witness :
    (controlPump ⟨true, 0, 0, true⟩ ⟨20, 30, 20, 50⟩ false 1000).runningTempCheck = false ↔
      ((⟨true, 0, 0, true⟩ : ControllerState).currentPumpState = true ∧
       (controlPump ⟨true, 0, 0, true⟩ ⟨20, 30, 20, 50⟩ false 1000).currentPumpState = false) :=
  (C5_verification_flag_transitions ⟨true, 0, 0, true⟩ ⟨20, 30, 20, 50⟩ false 1000
    (fun _ => rfl)).2 rfl

/-- Counterexample to C5 as stated: pump ON with the flag false; the
forced-check rule fires (invalid tank reading, long idle time), the pump
stays ON the whole cycle — no OFF-to-ON transition occurs — yet
`runningTempCheck` becomes true. -/
theorem C5_counterexample :
    (⟨true, 0, 0, false⟩ : ControllerState).currentPumpState = true ∧
    (⟨true, 0, 0, false⟩ : ControllerState).runningTempCheck = false ∧
    (controlPump ⟨true, 0, 0, false⟩ ⟨20, 30, -127, 50⟩ false 1800001).currentPumpState
      = true ∧
    (controlPump ⟨true, 0, 0, false⟩ ⟨20, 30, -127, 50⟩ false 1800001).runningTempCheck
      = true := by
  refine ⟨rfl, rfl, ?_, ?_⟩ <;>
    norm_num [controlPump, guardResult, allowStateChange, desiredPumpState,
      decisionDesired, decisionRtc, forcedCheckCond, isValidTemperature,
      MAX_MS_BETWEEN_TEMP_CHECK, MAX_TANK_TEMPERATURE]

/-- Claim C10: at the end of every control cycle, and at the initial
state, `runningTempCheck = true` implies the pump is ON: lines 236-244
unconditionally clear the flag whenever the pump is OFF at cycle end, so
a forced-verification request whose ON transition was rejected leaves the
flag false. -/
theorem C10_flag_implies_on :
    (∀ t : Nat, (initState t).runningTempCheck = true → (initState t).currentPumpState = true) ∧
    (∀ (s : ControllerState) (r : Readings) (e : Bool) (now : Nat),
      (controlPump s r e now).runningTempCheck = true →
      (controlPump s r e now).currentPumpState = true) := by
  constructor
  · intro t _; rfl
  · intro s r e now h
    cases hg : (guardResult s (desiredPumpState s r e now) (decisionRtc s r now) e now).1 with
    | false => simp [controlPump, hg] at h
    | true => simp [controlPump, hg]

/-- Witness for C10: a cycle that ends with the flag true (pump ON in
temp-check mode, readings keep it ON) indeed ends with the pump ON. -/
theorem C10_flag_implies_on_witness :
    (controlPump ⟨true, 0, 0, true⟩ ⟨20, 40, 20, 50⟩ false 1000).currentPumpState = true :=
  C10_flag_implies_on.2 ⟨true, 0, 0, true⟩ ⟨20, 40, 20, 50⟩ false 1000
    (by norm_num [controlPump, guardResult, allowStateChange, desiredPumpState,
      decisionDesired, decisionRtc, forcedCheckCond, isValidTemperature,
      MAX_MS_BETWEEN_TEMP_CHECK, MAX_TANK_TEMPERATURE, MIN_HOT_COLD_TEMP_DIFF])

/-! ### Command responder (serial line protocol) -/

/-- Serial receiver state: `serialBuffer` (line 93) and `inputReady`
(line 94), the buffer modelled as its list of characters. Initially the
buffer is empty and no input is pending. -/
structure SerialState where
  serialBuffer : List Char
  inputReady : Bool
  deriving Repr, DecidableEq

/-- One iteration of the `while (Serial.available())` loop of
`receiveSerialCharacters`, source lines 306-314: a newline marks the line
complete; any other character is appended only while the buffer holds
fewer than `SERIAL_BUFFER_SIZE` characters and no completed line is
pending. -/
def receiveChar (s : SerialState) (c : Char) : SerialState :=
  if c = '\n' then { s with inputReady := true }
  else if s.serialBuffer.length < SERIAL_BUFFER_SIZE ∧ s.inputReady = false then
    { s with serialBuffer := s.serialBuffer ++ [c] }
  else s

/-- `receiveSerialCharacters`, source lines 305-315, consuming the list of
characters currently available on the serial port. -/
def receiveSerialCharacters (s : SerialState) (cs : List Char) : SerialState :=
  cs.foldl receiveChar s

/-- `handleInput`, source lines 317-328: drain the serial port, and if a
completed line is pending, consume it, reset the buffer, and answer
"pong" exactly when the line is "p" or "ping". Returns the new serial
state and the optional response. -/
def handleInput (s : SerialState) (cs : List Char) : SerialState × Option String :=
  if (receiveSerialCharacters s cs).inputReady then
    if (receiveSerialCharacters s cs).serialBuffer = "p".data ∨
        (receiveSerialCharacters s cs).serialBuffer = "ping".data then
      (⟨[], false⟩, some "pong")
    else (⟨[], false⟩, none)
  else (receiveSerialCharacters s cs, none)

lemma receiveSerialCharacters_append (s : SerialState) (cs ds : List Char) :
    receiveSerialCharacters s (cs ++ ds) =
      receiveSerialCharacters (receiveSerialCharacters s cs) ds := by
  simp [receiveSerialCharacters, List.foldl_append]

/-- Feeding a newline-free list of characters into an empty, idle receiver
buffers exactly its first `SERIAL_BUFFER_SIZE` characters and discards the
rest. -/
lemma receive_no_newline (cs : List Char) (h : '\n' ∉ cs) :
    receiveSerialCharacters ⟨[], false⟩ cs = ⟨cs.take SERIAL_BUFFER_SIZE, false⟩ := by
  induction cs using List.reverseRecOn with
  | nil => rfl
  | append_singleton cs c ih =>
    have hc : ¬(c = '\n') := fun hh => h (by simp [hh])
    have hcs : '\n' ∉ cs := fun hm => h (List.mem_append_left _ hm)
    rw [receiveSerialCharacters_append, ih hcs]
    show receiveChar ⟨cs.take SERIAL_BUFFER_SIZE, false⟩ c = _
    unfold receiveChar
    rw [if_neg hc]
    by_cases hlen : cs.length < SERIAL_BUFFER_SIZE
    · rw [if_pos ⟨by rw [List.length_take]; omega, rfl⟩]
      have h1 : cs.take SERIAL_BUFFER_SIZE = cs := List.take_of_length_le (Nat.le_of_lt hlen)
      have h2 : (cs ++ [c]).take SERIAL_BUFFER_SIZE = cs ++ [c] :=
        List.take_of_length_le (by rw [List.length_append]; simp; omega)
      simp [h1, h2]
    · rw [if_neg (by rw [List.length_take]; omega)]
      have h2 : (cs ++ [c]).take SERIAL_BUFFER_SIZE = cs.take SERIAL_BUFFER_SIZE :=
        List.take_append_of_le_length (by omega)
      simp [h2]

/-- Truncation to the buffer size cannot be confused with a short word:
for a target shorter than the buffer bound, the truncated line equals the
target exactly when the whole line does. -/
lemma take_eq_short_iff (l m : List Char) (h : m.length < SERIAL_BUFFER_SIZE) :
    l.take SERIAL_BUFFER_SIZE = m ↔ l = m := by
  constructor
  · intro he
    rcases Nat.lt_or_ge l.length SERIAL_BUFFER_SIZE with hl | hl
    · rwa [List.take_of_length_le (Nat.le_of_lt hl)] at he
    · exfalso
      have hlen := congrArg List.length he
      rw [List.length_take] at hlen
      omega
  · intro he
    subst he
    exact List.take_of_length_le (Nat.le_of_lt h)

/-- Claim C9: presenting one completed line (its characters, none of which
is a newline, followed by the newline terminator) to an empty, idle
responder produces the single response "pong" exactly when the line is
"p" or "ping" and no response otherwise; characters beyond
`SERIAL_BUFFER_SIZE` are discarded, and the responder always returns to
the empty idle state, so an overlong line cannot corrupt the parsing of
subsequent lines (and, the model being a total function, cannot crash). -/
theorem C9_ping_responder :
    ∀ line : List Char, '\n' ∉ line →
      handleInput ⟨[], false⟩ (line ++ ['\n']) =
        (⟨[], false⟩, if line = "p".data ∨ line = "ping".data then some "pong" else none) := by
  intro line h
  have h1 : receiveSerialCharacters ⟨[], false⟩ (line ++ ['\n']) =
      ⟨line.take SERIAL_BUFFER_SIZE, true⟩ := by
    rw [receiveSerialCharacters_append, receive_no_newline line h]
    simp [receiveSerialCharacters, receiveChar]
  unfold handleInput
  rw [h1]
  dsimp only
  rw [if_pos rfl]
  have hp : ("p".data : List Char).length < SERIAL_BUFFER_SIZE := by decide
  have hq : ("ping".data : List Char).length < SERIAL_BUFFER_SIZE := by decide
  by_cases hl : line = "p".data ∨ line = "ping".data
  · rw [if_pos hl]
    rw [if_pos ?_]
    rcases hl with hl | hl
    · exact Or.inl ((take_eq_short_iff line _ hp).mpr hl)
    · exact Or.inr ((take_eq_short_iff line _ hq).mpr hl)
  · rw [if_neg hl]
    rw [if_neg ?_]
    rintro (he | he)
    · exact hl (Or.inl ((take_eq_short_iff line _ hp).mp he))
    · exact hl (Or.inr ((take_eq_short_iff line _ hq).mp he))

/-- Witness for C9: the line "ping" gets the response "pong" and resets
the responder to the idle state. -/
theorem C9_ping_responder_witness :
    handleInput ⟨[], false⟩ ("ping".data ++ ['\n']) = (⟨[], false⟩, some "pong") :=
  (C9_ping_responder "ping".data (by decide)).trans (by rw [if_pos (Or.inr rfl)])

end SolarControl
